import Mathlib

/-!
Shallow embedding of the `GraspDetectorGPD` ROS node declared in
`grasp_ros2/include/grasp_library/ros2/grasp_detector_gpd.hpp`.

The header supplies bodies only for the destructor, `pointEigenToMsg` and
`vectorEigenToMsg`; those are embedded directly from the source.  The other
member functions (`cloud_callback`, `object_callback`, `detectGraspPosesInTopic`,
`createGraspListMsg`, `convertToGraspMsg`, `convertToVisualGraspMsg`,
`createFingerMarker`, `createHandBaseMarker`) are declared in the header but
implemented elsewhere in the repository; their definitions below are modelled
from the specification, as marked in each doc comment.

C++ `double` is modelled by `Rat`: the orchestration layer only copies and
linearly combines coordinates, so no floating-point rounding behaviour is
relevant to the claims.  Member functions become explicit state-passing
functions on `NodeState`; ROS side effects (invoking the external detector,
publishing, logging) become an explicit `Output` list.
-/

namespace grasp_ros2

/-- Scalar values (C++ `double`). -/
abbrev Scalar := Rat

/-- `Eigen::Vector3d`, indexed `e 0`, `e 1`, `e 2` as in `e(0)`, `e(1)`, `e(2)`. -/
abbrev EigenVec3 := Fin 3 → Scalar

/-- `Eigen::Matrix3d`, the orientation frame of a grasp (columns are the
approach, binormal and axis directions). -/
abbrev EigenMat3 := Fin 3 → Fin 3 → Scalar

/-- `geometry_msgs::msg::Point`. -/
structure Point where
  x : Scalar
  y : Scalar
  z : Scalar
deriving DecidableEq

/-- `geometry_msgs::msg::Vector3`. -/
structure Vector3 where
  x : Scalar
  y : Scalar
  z : Scalar
deriving DecidableEq

/-- A default-constructed `geometry_msgs::msg::Point` (all fields zero). -/
def Point.zero : Point := ⟨0, 0, 0⟩

/-- A default-constructed `geometry_msgs::msg::Vector3` (all fields zero). -/
def Vector3.zero : Vector3 := ⟨0, 0, 0⟩

/-- `std_msgs::msg::Header`: coordinate frame id and timestamp. -/
structure Header where
  frame_id : String
  stamp : Nat
deriving DecidableEq

/-- Converts an Eigen Vector into a Point message; embeds `pointEigenToMsg`
from the header, which assigns `m.x = e(0); m.y = e(1); m.z = e(2)`. -/
def pointEigenToMsg (e : EigenVec3) (m : Point) : Point :=
  { m with x := e 0, y := e 1, z := e 2 }

/-- Converts an Eigen Vector into a Vector message; embeds `vectorEigenToMsg`
from the header, which assigns `m.x = e(0); m.y = e(1); m.z = e(2)`. -/
def vectorEigenToMsg (e : EigenVec3) (m : Vector3) : Vector3 :=
  { m with x := e 0, y := e 1, z := e 2 }

/-- The cleanup actions a `GraspDetectorGPD` destructor could perform on the
resources named in the header: the buffered cloud `cloud_camera_`, the
detector `grasp_detector_`, and the worker thread `detector_thread_`. -/
inductive CleanupAction where
  | deleteCloudCamera
  | deleteGraspDetector
  | joinDetectorThread
deriving DecidableEq

/-- The destructor body of `GraspDetectorGPD` exactly as written in the
header: `delete cloud_camera_; delete grasp_detector_;` followed by the
comment `todo stop and delete threads` — no action on `detector_thread_`. -/
def destructorGraspDetectorGPD : List CleanupAction :=
  [CleanupAction.deleteCloudCamera, CleanupAction.deleteGraspDetector]

/-- Modelled from the spec: the external GPD library's `Grasp` value, whose
definition is not under the visible sources.  Per the spec's data model it
carries a position, an orientation frame, geometric parameters and a score;
the approach, binormal and axis directions are the columns of the frame. -/
structure Grasp where
  position : EigenVec3
  frame : EigenMat3
  width : Scalar
  score : Scalar
deriving DecidableEq

/-- Column 0 of the orientation frame: the approach direction. -/
def Grasp.approach (hand : Grasp) : EigenVec3 := fun i => hand.frame i 0

/-- Column 1 of the orientation frame: the binormal direction. -/
def Grasp.binormal (hand : Grasp) : EigenVec3 := fun i => hand.frame i 1

/-- Column 2 of the orientation frame: the axis direction. -/
def Grasp.axis (hand : Grasp) : EigenVec3 := fun i => hand.frame i 2

/-- Modelled from the spec: the repository's `grasp_msgs::msg::GraspConfig`
message (its `.msg` definition is not under the visible sources).  Per the
spec's outbound interface it holds the grasp position, the orientation frame
(approach, binormal, axis), the opening width and the score. -/
structure GraspConfig where
  position : Point
  approach : Vector3
  binormal : Vector3
  axis : Vector3
  width : Scalar
  score : Scalar
deriving DecidableEq

/-- `grasp_msgs::msg::GraspConfigList`: a header plus a list of grasp
configurations. -/
structure GraspConfigList where
  header : Header
  grasps : List GraspConfig
deriving DecidableEq

/-- Modelled from the spec: `convertToGraspMsg`, whose body is not under the
visible sources.  It converts one GPD grasp into a grasp message, copying the
position and the orientation-frame directions through the Eigen-to-message
converters, together with the opening width and the score. -/
def convertToGraspMsg (hand : Grasp) : GraspConfig :=
  { position := pointEigenToMsg hand.position Point.zero
    approach := vectorEigenToMsg hand.approach Vector3.zero
    binormal := vectorEigenToMsg hand.binormal Vector3.zero
    axis := vectorEigenToMsg hand.axis Vector3.zero
    width := hand.width
    score := hand.score }

/-- Modelled from the spec: `createGraspListMsg`, whose body is not under the
visible sources.  Every grasp candidate yields exactly one outbound grasp
configuration, in order; the message header is the buffered cloud header. -/
def createGraspListMsg (header : Header) (hands : List Grasp) : GraspConfigList :=
  { header := header, grasps := hands.map convertToGraspMsg }

/-- A visualization marker.  The two marker constructors mirror the header's
`createFingerMarker` and `createHandBaseMarker` signatures, recording exactly
the arguments those declarations receive. -/
inductive Marker where
  | finger (center : EigenVec3) (frame : EigenMat3)
      (length width height : Scalar) (id : Int) (frame_id : String)
  | handBase (base_start base_end : EigenVec3) (frame : EigenMat3)
      (length height : Scalar) (id : Int) (frame_id : String)
deriving DecidableEq

/-- `visualization_msgs::msg::MarkerArray`. -/
structure MarkerArray where
  markers : List Marker
deriving DecidableEq

/-- Modelled from the spec: `createFingerMarker`, whose body is not under the
visible sources; it builds one finger marker from the given center, frame,
dimensions, id and frame id. -/
def createFingerMarker (center : EigenVec3) (frame : EigenMat3)
    (length width height : Scalar) (id : Int) (frame_id : String) : Marker :=
  Marker.finger center frame length width height id frame_id

/-- Modelled from the spec: `createHandBaseMarker`, whose body is not under
the visible sources; it builds one hand-base marker spanning the two finger
centers. -/
def createHandBaseMarker (base_start base_end : EigenVec3) (frame : EigenMat3)
    (length height : Scalar) (id : Int) (frame_id : String) : Marker :=
  Marker.handBase base_start base_end frame length height id frame_id

/-- Modelled from the spec: the fixed set of marker primitives one grasp
candidate contributes to the visualization — two finger markers and one
hand-base marker, positioned from the candidate's orientation frame and the
hand's physical dimensions. -/
def markersForHand (outer_diameter hand_depth finger_width hand_height : Scalar)
    (frame_id : String) (i : Nat) (hand : Grasp) : List Marker :=
  let frame := hand.frame
  let half_width := (outer_diameter - finger_width) / 2
  let left_center : EigenVec3 := fun j => hand.position j - hand.binormal j * half_width
  let right_center : EigenVec3 := fun j => hand.position j + hand.binormal j * half_width
  [createFingerMarker left_center frame hand_depth finger_width hand_height
      (Int.ofNat (3 * i)) frame_id,
    createFingerMarker right_center frame hand_depth finger_width hand_height
      (Int.ofNat (3 * i + 1)) frame_id,
    createHandBaseMarker left_center right_center frame finger_width hand_height
      (Int.ofNat (3 * i + 2)) frame_id]

/-- Marker lists for a list of candidates, numbering candidates from `i`. -/
def visualMarkers (outer_diameter hand_depth finger_width hand_height : Scalar)
    (frame_id : String) : Nat → List Grasp → List Marker
  | _, [] => []
  | i, hand :: rest =>
    markersForHand outer_diameter hand_depth finger_width hand_height frame_id i hand ++
      visualMarkers outer_diameter hand_depth finger_width hand_height frame_id (i + 1) rest

/-- Modelled from the spec: `convertToVisualGraspMsg`, whose body is not under
the visible sources.  Each candidate contributes the fixed per-candidate set
of marker primitives; the parameter order follows the header declaration. -/
def convertToVisualGraspMsg (hands : List Grasp)
    (outer_diameter hand_depth finger_width hand_height : Scalar)
    (frame_id : String) : MarkerArray :=
  { markers :=
      visualMarkers outer_diameter hand_depth finger_width hand_height frame_id 0 hands }

/-- `object_msgs::msg::ObjectInBox`: one detected object with its name,
detection probability and bounding box (region of interest). -/
structure ObjectInBox where
  object_name : String
  probability : Scalar
  roi_x_offset : Nat
  roi_y_offset : Nat
  roi_width : Nat
  roi_height : Nat
deriving DecidableEq

/-- `object_msgs::msg::ObjectsInBoxes`: a header plus the detected objects. -/
structure ObjectsInBoxes where
  header : Header
  objects_vector : List ObjectInBox
deriving DecidableEq

/-- `sensor_msgs::msg::PointCloud2`, reduced to what the node reads from it:
the header and the point data. -/
structure CloudMsg where
  header : Header
  points : List EigenVec3
deriving DecidableEq

/-- `CloudCamera` (GPG): the stored point cloud handed to the detector. -/
structure CloudCamera where
  points : List EigenVec3
deriving DecidableEq

/-- The buffered cloud built from an incoming cloud message. -/
def cloudCameraOfMsg (msg : CloudMsg) : CloudCamera :=
  { points := msg.points }

/-- The member state of `GraspDetectorGPD`, field for field from the header:
view point, buffered cloud pointer (`none` models the null pointer), its
header, the status flags, the cloud frame and the object map.  The object map
`std::map<std::string, std::tuple<double, ObjectsInBoxes>>` is modelled as an
association list. -/
structure NodeState where
  view_point_ : EigenVec3
  cloud_camera_ : Option CloudCamera
  cloud_camera_header_ : Header
  has_cloud_ : Bool
  frame_ : String
  auto_mode_ : Bool
  object_detect_ : Bool
  objects : List (String × Scalar × ObjectsInBoxes)
deriving DecidableEq

/-- Externally visible effects of one callback or detection request. -/
inductive Output where
  | detectorInvoked (cloud : CloudCamera)
  | publishGrasps (msg : GraspConfigList)
  | logSkip
deriving DecidableEq

/-- Modelled from the spec: the entries the object map receives from one
object-detection message — one entry per detected object, keyed by its name,
holding the detection probability and the bounding-box message. -/
def objectsOfMsg (msg : ObjectsInBoxes) : List (String × Scalar × ObjectsInBoxes) :=
  msg.objects_vector.map (fun o => (o.object_name, o.probability, msg))

/-- Modelled from the spec: `object_callback`, whose body is not under the
visible sources.  Receiving a new object message fully replaces the previous
mapping. -/
def object_callback (s : NodeState) (msg : ObjectsInBoxes) : NodeState × List Output :=
  ({ s with objects := objectsOfMsg msg }, [])

/-- Modelled from the spec: `detectGraspPosesInTopic`, whose body is not under
the visible sources.  When a buffered cloud is present it passes the buffered
cloud to the external detector (`detect` stands for the opaque
`grasp_detector_`) and returns the candidates; a missing cloud is a no-op that
reports and skips. -/
def detectGraspPosesInTopic (detect : CloudCamera → List Grasp) (s : NodeState) :
    Option (List Grasp) × List Output :=
  if s.has_cloud_ then
    match s.cloud_camera_ with
    | some cloud => (some (detect cloud), [Output.detectorInvoked cloud])
    | none => (none, [Output.logSkip])
  else (none, [Output.logSkip])

/-- Modelled from the spec: a detection request followed by publication —
run detection on the buffered cloud and publish the resulting grasp list;
when detection skipped, publish nothing. -/
def detectAndPublish (detect : CloudCamera → List Grasp) (s : NodeState) : List Output :=
  match detectGraspPosesInTopic detect s with
  | (some hands, out) =>
    out ++ [Output.publishGrasps (createGraspListMsg s.cloud_camera_header_ hands)]
  | (none, out) => out

/-- Modelled from the spec: `cloud_callback`, whose body is not under the
visible sources.  It stores the cloud and its header, records that a cloud is
available, and — only when auto mode is enabled — triggers detection
immediately. -/
def cloud_callback (detect : CloudCamera → List Grasp) (s : NodeState)
    (msg : CloudMsg) : NodeState × List Output :=
  let s' : NodeState :=
    { s with
      cloud_camera_ := some (cloudCameraOfMsg msg)
      cloud_camera_header_ := msg.header
      has_cloud_ := true
      frame_ := msg.header.frame_id }
  if s.auto_mode_ then (s', detectAndPublish detect s') else (s', [])

/-- Events the node reacts to: the two subscriptions and an external
detection trigger. -/
inductive Event where
  | recvCloud (msg : CloudMsg)
  | recvObjects (msg : ObjectsInBoxes)
  | triggerDetect
deriving DecidableEq

/-- One dispatch of the node: route the event to its callback. -/
def step (detect : CloudCamera → List Grasp) (s : NodeState) :
    Event → NodeState × List Output
  | Event.recvCloud msg => cloud_callback detect s msg
  | Event.recvObjects msg => object_callback s msg
  | Event.triggerDetect => (s, detectAndPublish detect s)

/-- Run the node over a sequence of events, collecting all outputs. -/
def run (detect : CloudCamera → List Grasp) (s : NodeState) :
    List Event → NodeState × List Output
  | [] => (s, [])
  | e :: es =>
    let p := step detect s e
    let q := run detect p.1 es
    (q.1, p.2 ++ q.2)

/-- The state after construction: no buffered cloud (`cloud_camera_` is the
null pointer), `has_cloud_` false, empty object map; the mode flags come from
node parameters. -/
def initState (auto_mode object_detect : Bool) : NodeState :=
  { view_point_ := fun _ => 0
    cloud_camera_ := none
    cloud_camera_header_ := { frame_id := "", stamp := 0 }
    has_cloud_ := false
    frame_ := ""
    auto_mode_ := auto_mode
    object_detect_ := object_detect
    objects := [] }

/-- Modelled from the spec: `convertToGraspMsg` receives its candidate by
const reference.  The reference is made explicit: the pair returns the
message together with the candidate storage as the routine leaves it. -/
def convertToGraspMsgRef (hand : Grasp) : GraspConfig × Grasp :=
  (convertToGraspMsg hand, hand)

/-- Reference-threaded conversion of a candidate list: each candidate is
converted in turn and the candidate storage is rebuilt alongside. -/
def graspMsgsRef : List Grasp → List GraspConfig × List Grasp
  | [] => ([], [])
  | hand :: rest =>
    let p := convertToGraspMsgRef hand
    let q := graspMsgsRef rest
    (p.1 :: q.1, p.2 :: q.2)

/-- Modelled from the spec: `createGraspListMsg` receives its candidate list
by const reference; the pair returns the message together with the candidate
storage as the routine leaves it. -/
def createGraspListMsgRef (header : Header) (hands : List Grasp) :
    GraspConfigList × List Grasp :=
  let p := graspMsgsRef hands
  ({ header := header, grasps := p.1 }, p.2)

/-- Reference-threaded marker construction over a candidate list. -/
def visualMarkersRef (outer_diameter hand_depth finger_width hand_height : Scalar)
    (frame_id : String) : Nat → List Grasp → List Marker × List Grasp
  | _, [] => ([], [])
  | i, hand :: rest =>
    let q := visualMarkersRef outer_diameter hand_depth finger_width hand_height
      frame_id (i + 1) rest
    (markersForHand outer_diameter hand_depth finger_width hand_height frame_id i hand ++
        q.1,
      hand :: q.2)

/-- Modelled from the spec: `convertToVisualGraspMsg` receives its candidate
list by const reference; the pair returns the marker array together with the
candidate storage as the routine leaves it. -/
def convertToVisualGraspMsgRef (hands : List Grasp)
    (outer_diameter hand_depth finger_width hand_height : Scalar)
    (frame_id : String) : MarkerArray × List Grasp :=
  let p := visualMarkersRef outer_diameter hand_depth finger_width hand_height
    frame_id 0 hands
  ({ markers := p.1 }, p.2)

/-- Concrete sample values used by the witnesses below. -/
def sampleHeader : Header := { frame_id := "camera", stamp := 7 }

/-- A concrete grasp candidate. -/
def sampleGrasp : Grasp :=
  { position := fun _ => 1, frame := fun i j => if i = j then 1 else 0,
    width := 2, score := 3 }

/-- A concrete non-empty cloud message. -/
def sampleCloudMsg : CloudMsg :=
  { header := { frame_id := "camera", stamp := 1 }, points := [fun _ => 1] }

/-- A concrete stand-in for the external detector. -/
def sampleDetect : CloudCamera → List Grasp := fun _ => [sampleGrasp]

/-- A concrete detected object. -/
def sampleObject : ObjectInBox :=
  { object_name := "bottle", probability := 9 / 10,
    roi_x_offset := 0, roi_y_offset := 0, roi_width := 10, roi_height := 20 }

/-- A concrete object-detection message. -/
def sampleObjectsMsg : ObjectsInBoxes :=
  { header := { frame_id := "camera", stamp := 2 }, objects_vector := [sampleObject] }

/-! ### Helper lemmas -/

/-- Running one event and then the rest threads the state through `step`. -/
theorem run_cons (detect : CloudCamera → List Grasp) (s : NodeState) (e : Event)
    (es : List Event) :
    run detect s (e :: es) =
      ((run detect (step detect s e).1 es).1,
        (step detect s e).2 ++ (run detect (step detect s e).1 es).2) := by
  simp [run]

/-- Whatever the auto-mode branch, `cloud_callback` moves to the state that
stores the new cloud and header. -/
theorem cloud_callback_state (detect : CloudCamera → List Grasp) (s : NodeState)
    (msg : CloudMsg) :
    (cloud_callback detect s msg).1 =
      { s with
        cloud_camera_ := some (cloudCameraOfMsg msg)
        cloud_camera_header_ := msg.header
        has_cloud_ := true
        frame_ := msg.header.frame_id } := by
  by_cases hb : s.auto_mode_ <;> simp [cloud_callback, hb]

/-- Each candidate contributes exactly three markers. -/
theorem visualMarkers_length (outer_diameter hand_depth finger_width hand_height : Scalar)
    (frame_id : String) :
    ∀ (hands : List Grasp) (i : Nat),
      (visualMarkers outer_diameter hand_depth finger_width hand_height frame_id
          i hands).length = 3 * hands.length := by
  intro hands
  induction hands with
  | nil => intro i; simp [visualMarkers]
  | cons hand rest ih =>
    intro i
    simp [visualMarkers, markersForHand, ih (i + 1)]
    omega

/-- The reference-threaded list conversion computes the mapped messages and
returns the candidate storage unchanged. -/
theorem graspMsgsRef_spec :
    ∀ hands : List Grasp,
      (graspMsgsRef hands).1 = hands.map convertToGraspMsg ∧
        (graspMsgsRef hands).2 = hands := by
  intro hands
  induction hands with
  | nil => simp [graspMsgsRef]
  | cons hand rest ih => simp [graspMsgsRef, convertToGraspMsgRef, ih.1, ih.2]

/-- The reference-threaded marker construction computes `visualMarkers` and
returns the candidate storage unchanged. -/
theorem visualMarkersRef_spec (outer_diameter hand_depth finger_width hand_height : Scalar)
    (frame_id : String) :
    ∀ (hands : List Grasp) (i : Nat),
      (visualMarkersRef outer_diameter hand_depth finger_width hand_height frame_id
          i hands).1 =
        visualMarkers outer_diameter hand_depth finger_width hand_height frame_id
          i hands ∧
      (visualMarkersRef outer_diameter hand_depth finger_width hand_height frame_id
          i hands).2 = hands := by
  intro hands
  induction hands with
  | nil => intro i; simp [visualMarkersRef, visualMarkers]
  | cons hand rest ih =>
    intro i
    simp [visualMarkersRef, visualMarkers, (ih (i + 1)).1, (ih (i + 1)).2]

/-- The cloud invariant: whenever `has_cloud_` is set, a non-empty buffered
cloud is present. -/
def CloudInv (s : NodeState) : Prop :=
  s.has_cloud_ = true → ∃ c, s.cloud_camera_ = some c ∧ c.points ≠ []

/-- A step on a non-empty incoming cloud preserves the cloud invariant. -/
theorem step_preserves_inv (detect : CloudCamera → List Grasp) (s : NodeState)
    (e : Event) (hinv : CloudInv s)
    (hmsg : ∀ m, e = Event.recvCloud m → m.points ≠ []) :
    CloudInv (step detect s e).1 := by
  cases e with
  | recvCloud msg =>
    intro _
    rw [step, cloud_callback_state]
    exact ⟨cloudCameraOfMsg msg, rfl, hmsg msg rfl⟩
  | recvObjects msg =>
    intro h
    rcases hinv h with ⟨c, hc, hne⟩
    exact ⟨c, hc, hne⟩
  | triggerDetect => exact hinv

/-- In one step from an invariant state fed a non-empty cloud message, every
detector invocation receives a non-empty cloud. -/
theorem step_detector_nonempty (detect : CloudCamera → List Grasp) (s : NodeState)
    (e : Event) (hinv : CloudInv s)
    (hmsg : ∀ m, e = Event.recvCloud m → m.points ≠ []) :
    ∀ c, Output.detectorInvoked c ∈ (step detect s e).2 → c.points ≠ [] := by
  intro c hc
  cases e with
  | recvCloud msg =>
    by_cases hb : s.auto_mode_
    · simp [step, cloud_callback, hb, detectAndPublish, detectGraspPosesInTopic] at hc
      rcases hc with ⟨rfl, -⟩
      exact hmsg msg rfl
    · simp [step, cloud_callback, hb] at hc
  | recvObjects msg => simp [step, object_callback] at hc
  | triggerDetect =>
    by_cases hb : s.has_cloud_
    · rcases hinv hb with ⟨c0, hc0, hne⟩
      simp [step, detectAndPublish, detectGraspPosesInTopic, hb, hc0] at hc
      rcases hc with ⟨rfl, -⟩
      exact hne
    · simp [step, detectAndPublish, detectGraspPosesInTopic, hb] at hc

/-- Whenever a step invokes the detector, the state at the invocation has
`has_cloud_` set and the invoked cloud is exactly the buffered cloud. -/
theorem step_detector_state (detect : CloudCamera → List Grasp) (s : NodeState)
    (e : Event) :
    ∀ c, Output.detectorInvoked c ∈ (step detect s e).2 →
      (step detect s e).1.has_cloud_ = true ∧
        (step detect s e).1.cloud_camera_ = some c := by
  intro c hc
  cases e with
  | recvCloud msg =>
    by_cases hb : s.auto_mode_
    · simp [step, cloud_callback, hb, detectAndPublish, detectGraspPosesInTopic] at hc ⊢
      rcases hc with ⟨rfl, -⟩
      simp
    · simp [step, cloud_callback, hb] at hc
  | recvObjects msg => simp [step, object_callback] at hc
  | triggerDetect =>
    by_cases hb : s.has_cloud_
    · cases hcam : s.cloud_camera_ with
      | none => simp [step, detectAndPublish, detectGraspPosesInTopic, hb, hcam] at hc
      | some c0 =>
        simp [step, detectAndPublish, detectGraspPosesInTopic, hb, hcam] at hc
        refine ⟨?_, ?_⟩ <;> simp [step, hb, hcam, hc]
    · simp [step, detectAndPublish, detectGraspPosesInTopic, hb] at hc

/-- Along any run from an invariant state on non-empty cloud messages, every
detector invocation receives a non-empty cloud. -/
theorem run_detector_nonempty (detect : CloudCamera → List Grasp) :
    ∀ (events : List Event) (s : NodeState), CloudInv s →
      (∀ m, Event.recvCloud m ∈ events → m.points ≠ []) →
      ∀ c, Output.detectorInvoked c ∈ (run detect s events).2 → c.points ≠ [] := by
  intro events
  induction events with
  | nil => intro s _ _ c hc; simp [run] at hc
  | cons e es ih =>
    intro s hinv hmsgs c hc
    rw [run_cons] at hc
    rcases List.mem_append.mp hc with hstep | hrest
    · exact step_detector_nonempty detect s e hinv
        (fun m hm => hmsgs m (hm ▸ List.mem_cons_self e es)) c hstep
    · exact ih (step detect s e).1
        (step_preserves_inv detect s e hinv
          (fun m hm => hmsgs m (hm ▸ List.mem_cons_self e es)))
        (fun m hm => hmsgs m (List.mem_cons_of_mem e hm)) c hrest

/-! ### Claim theorems -/

/-- C10: `pointEigenToMsg` sets the Point message fields to exactly `e 0`,
`e 1`, `e 2`, and `vectorEigenToMsg` sets the Vector3 message fields to
exactly `e 0`, `e 1`, `e 2`; hence on the same input vector the two
converters produce componentwise-equal coordinates. -/
theorem C10_eigen_to_msg_exact (e : EigenVec3) (mp : Point) (mv : Vector3) :
    (pointEigenToMsg e mp).x = e 0 ∧ (pointEigenToMsg e mp).y = e 1 ∧
    (pointEigenToMsg e mp).z = e 2 ∧
    (vectorEigenToMsg e mv).x = e 0 ∧ (vectorEigenToMsg e mv).y = e 1 ∧
    (vectorEigenToMsg e mv).z = e 2 ∧
    (pointEigenToMsg e mp).x = (vectorEigenToMsg e mv).x ∧
    (pointEigenToMsg e mp).y = (vectorEigenToMsg e mv).y ∧
    (pointEigenToMsg e mp).z = (vectorEigenToMsg e mv).z :=
  ⟨rfl, rfl, rfl, rfl, rfl, rfl, rfl, rfl, rfl⟩

/-- C8 (code evaluation): the destructor as written deletes the buffered
cloud and the detector instance but performs no action at all on the worker
thread `detector_thread_` — in particular it never joins it.  The claim's
join step is absent from the code, which marks it `todo`. -/
theorem C8_destructor_never_joins_thread :
    CleanupAction.deleteCloudCamera ∈ destructorGraspDetectorGPD ∧
    CleanupAction.deleteGraspDetector ∈ destructorGraspDetectorGPD ∧
    CleanupAction.joinDetectorThread ∉ destructorGraspDetectorGPD := by
  refine ⟨by simp [destructorGraspDetectorGPD], by simp [destructorGraspDetectorGPD], ?_⟩
  simp [destructorGraspDetectorGPD]

/-- C1: the outbound grasp-configuration list carries exactly one
`GraspConfig` per candidate, in order, and at every index the message is the
`convertToGraspMsg` image of the candidate, with position and
orientation-frame fields equal to the candidate's converted position and
frame columns. -/
theorem C1_grasp_list_one_per_candidate (header : Header) (hands : List Grasp) :
    (createGraspListMsg header hands).grasps.length = hands.length ∧
    ∀ (i : Nat) (h1 : i < hands.length)
      (h2 : i < (createGraspListMsg header hands).grasps.length),
      (createGraspListMsg header hands).grasps.get ⟨i, h2⟩ =
          convertToGraspMsg (hands.get ⟨i, h1⟩) ∧
      ((createGraspListMsg header hands).grasps.get ⟨i, h2⟩).position =
          pointEigenToMsg (hands.get ⟨i, h1⟩).position Point.zero ∧
      ((createGraspListMsg header hands).grasps.get ⟨i, h2⟩).approach =
          vectorEigenToMsg (hands.get ⟨i, h1⟩).approach Vector3.zero ∧
      ((createGraspListMsg header hands).grasps.get ⟨i, h2⟩).binormal =
          vectorEigenToMsg (hands.get ⟨i, h1⟩).binormal Vector3.zero ∧
      ((createGraspListMsg header hands).grasps.get ⟨i, h2⟩).axis =
          vectorEigenToMsg (hands.get ⟨i, h1⟩).axis Vector3.zero := by
  constructor
  · simp [createGraspListMsg]
  · intro i h1 h2
    have hg : (createGraspListMsg header hands).grasps.get ⟨i, h2⟩ =
        convertToGraspMsg (hands.get ⟨i, h1⟩) := by
      simp [createGraspListMsg, List.get_eq_getElem]
    refine ⟨hg, ?_, ?_, ?_, ?_⟩ <;>
      simp [createGraspListMsg, List.get_eq_getElem, convertToGraspMsg]

/-- Witness for C1 at a singleton candidate list. -/
theorem C1_witness :
    (createGraspListMsg sampleHeader [sampleGrasp]).grasps.length = 1 ∧
    (createGraspListMsg sampleHeader [sampleGrasp]).grasps.get
        ⟨0, by simp [createGraspListMsg]⟩ =
      convertToGraspMsg ([sampleGrasp].get ⟨0, by simp⟩) :=
  ⟨(C1_grasp_list_one_per_candidate sampleHeader [sampleGrasp]).1,
    ((C1_grasp_list_one_per_candidate sampleHeader [sampleGrasp]).2 0 (by simp)
        (by simp [createGraspListMsg])).1⟩

/-- C2: after any sequence of cloud callbacks, the buffered cloud and its
header are those of the most recently received message; each new message
overwrites the previous buffer. -/
theorem C2_buffer_holds_latest_cloud (detect : CloudCamera → List Grasp)
    (s : NodeState) (msgs : List CloudMsg) (m : CloudMsg) :
    (run detect s ((msgs ++ [m]).map Event.recvCloud)).1.cloud_camera_ =
        some (cloudCameraOfMsg m) ∧
    (run detect s ((msgs ++ [m]).map Event.recvCloud)).1.cloud_camera_header_ =
        m.header ∧
    (run detect s ((msgs ++ [m]).map Event.recvCloud)).1.has_cloud_ = true := by
  induction msgs generalizing s with
  | nil =>
    have hstate : (run detect s ([m].map Event.recvCloud)).1 =
        (cloud_callback detect s m).1 := by
      simp [run, step]
    rw [List.nil_append]
    rw [hstate, cloud_callback_state]
    exact ⟨rfl, rfl, rfl⟩
  | cons m0 rest ih =>
    have hstate : (run detect s (((m0 :: rest) ++ [m]).map Event.recvCloud)).1 =
        (run detect (step detect s (Event.recvCloud m0)).1
          ((rest ++ [m]).map Event.recvCloud)).1 := by
      simp only [List.cons_append, List.map_cons, run_cons]
    rw [hstate]
    exact ih (step detect s (Event.recvCloud m0)).1

/-- C3: from the initial state, provided the incoming cloud messages honour
the input contract (non-empty point data), the external detector is never
invoked on an empty or absent buffered cloud: every invocation along the run
carries non-empty points, and any step that invokes the detector does so in a
state whose `has_cloud_` flag is set and whose buffered cloud is exactly the
cloud handed to the detector. -/
theorem C3_detector_never_without_cloud (detect : CloudCamera → List Grasp)
    (auto_mode object_detect : Bool) (events : List Event)
    (hmsgs : ∀ m, Event.recvCloud m ∈ events → m.points ≠ []) :
    (∀ c, Output.detectorInvoked c ∈
        (run detect (initState auto_mode object_detect) events).2 →
      c.points ≠ []) ∧
    (∀ (s : NodeState) (e : Event) (c : CloudCamera),
      Output.detectorInvoked c ∈ (step detect s e).2 →
        (step detect s e).1.has_cloud_ = true ∧
          (step detect s e).1.cloud_camera_ = some c) := by
  constructor
  · exact run_detector_nonempty detect events (initState auto_mode object_detect)
      (fun h => absurd h (by simp [initState])) hmsgs
  · exact fun s e c => step_detector_state detect s e c

/-- Witness for C3 on a concrete two-event trace: a non-empty cloud message
followed by an external detection trigger. -/
theorem C3_witness : (cloudCameraOfMsg sampleCloudMsg).points ≠ [] :=
  (C3_detector_never_without_cloud sampleDetect true false
      [Event.recvCloud sampleCloudMsg, Event.triggerDetect]
      (by
        intro m hm
        simp at hm
        rcases hm with rfl
        simp [sampleCloudMsg])).1
    (cloudCameraOfMsg sampleCloudMsg)
    (by
      simp [run, step, cloud_callback, initState, detectAndPublish,
        detectGraspPosesInTopic, cloud_callback_state])

/-- C4: `object_callback` replaces the object map wholesale — after the
callback the map is exactly the entries derived from the new message (keyed
by the message's object names, carrying its probabilities and the message
itself), so no entry from any earlier message survives. -/
theorem C4_object_map_replaced (s : NodeState) (msg : ObjectsInBoxes) :
    (object_callback s msg).1.objects = objectsOfMsg msg ∧
    (∀ entry ∈ (object_callback s msg).1.objects,
      entry.2.2 = msg ∧ entry.1 ∈ msg.objects_vector.map ObjectInBox.object_name) ∧
    (object_callback s msg).2 = [] := by
  refine ⟨rfl, ?_, rfl⟩
  intro entry hentry
  simp [object_callback, objectsOfMsg] at hentry
  rcases hentry with ⟨o, ho, rfl⟩
  exact ⟨rfl, by exact List.mem_map_of_mem ObjectInBox.object_name ho⟩

/-- Witness for C4 at a concrete state holding a stale entry and a concrete
one-object message. -/
theorem C4_witness :
    (object_callback
        { initState true false with
          objects := [("stale", 1 / 2, sampleObjectsMsg)] }
        sampleObjectsMsg).1.objects = objectsOfMsg sampleObjectsMsg ∧
    ("bottle", (9 : Scalar) / 10, sampleObjectsMsg).2.2 = sampleObjectsMsg :=
  ⟨(C4_object_map_replaced
      { initState true false with objects := [("stale", 1 / 2, sampleObjectsMsg)] }
      sampleObjectsMsg).1,
    ((C4_object_map_replaced
        { initState true false with objects := [("stale", 1 / 2, sampleObjectsMsg)] }
        sampleObjectsMsg).2.1
      ("bottle", (9 : Scalar) / 10, sampleObjectsMsg)
      (by simp [object_callback, objectsOfMsg, sampleObjectsMsg, sampleObject])).1⟩

/-- C5: a detection request in a state without a buffered cloud is a no-op:
the state is returned unchanged, the only output is the skip report, and in
particular no grasp-list message is published. -/
theorem C5_trigger_without_cloud_noop (detect : CloudCamera → List Grasp)
    (s : NodeState) (h : s.has_cloud_ = false) :
    step detect s Event.triggerDetect = (s, [Output.logSkip]) ∧
    ∀ msg, Output.publishGrasps msg ∉ (step detect s Event.triggerDetect).2 := by
  have hs : step detect s Event.triggerDetect = (s, [Output.logSkip]) := by
    simp [step, detectAndPublish, detectGraspPosesInTopic, h]
  refine ⟨hs, ?_⟩
  intro msg hmem
  rw [hs] at hmem
  simp at hmem

/-- Witness for C5 at the initial state, whose `has_cloud_` flag is false. -/
theorem C5_witness :
    step sampleDetect (initState false false) Event.triggerDetect =
        (initState false false, [Output.logSkip]) ∧
    Output.publishGrasps (createGraspListMsg sampleHeader []) ∉
      (step sampleDetect (initState false false) Event.triggerDetect).2 :=
  ⟨(C5_trigger_without_cloud_noop sampleDetect (initState false false) rfl).1,
    (C5_trigger_without_cloud_noop sampleDetect (initState false false) rfl).2
      (createGraspListMsg sampleHeader [])⟩

/-- C6: for every non-empty candidate list the marker array holds a fixed
per-candidate count of primitives — two finger markers plus one hand-base
marker, i.e. three — times the number of candidates. -/
theorem C6_marker_count_per_candidate (hands : List Grasp)
    (outer_diameter hand_depth finger_width hand_height : Scalar)
    (frame_id : String) (h : hands ≠ []) :
    (convertToVisualGraspMsg hands outer_diameter hand_depth finger_width
        hand_height frame_id).markers.length = 3 * hands.length := by
  simp [convertToVisualGraspMsg,
    visualMarkers_length outer_diameter hand_depth finger_width hand_height
      frame_id hands 0]

/-- Witness for C6 at a singleton candidate list. -/
theorem C6_witness :
    ([sampleGrasp] ≠ ([] : List Grasp)) ∧
    (convertToVisualGraspMsg [sampleGrasp] 1 2 (1 / 2) 1 "camera").markers.length =
      3 * [sampleGrasp].length :=
  ⟨by simp,
    C6_marker_count_per_candidate [sampleGrasp] 1 2 (1 / 2) 1 "camera" (by simp)⟩

/-- C7: on receipt of a cloud message the node stores the cloud and header
(and raises `has_cloud_`), and the callback triggers detection if and only if
auto mode is enabled. -/
theorem C7_auto_mode_gates_detection (detect : CloudCamera → List Grasp)
    (s : NodeState) (msg : CloudMsg) :
    (cloud_callback detect s msg).1.cloud_camera_ = some (cloudCameraOfMsg msg) ∧
    (cloud_callback detect s msg).1.cloud_camera_header_ = msg.header ∧
    (cloud_callback detect s msg).1.has_cloud_ = true ∧
    ((∃ c, Output.detectorInvoked c ∈ (cloud_callback detect s msg).2) ↔
      s.auto_mode_ = true) := by
  rw [cloud_callback_state]
  refine ⟨rfl, rfl, rfl, ?_⟩
  by_cases hb : s.auto_mode_
  · constructor
    · intro _; exact hb
    · intro _
      exact ⟨cloudCameraOfMsg msg,
        by simp [cloud_callback, hb, detectAndPublish, detectGraspPosesInTopic]⟩
  · constructor
    · intro hex
      rcases hex with ⟨c, hc⟩
      simp [cloud_callback, hb] at hc
    · intro hc
      exact absurd hc (by simp [hb])

/-- C9: the conversion routines never mutate a candidate — threading the
const-referenced candidate storage through `createGraspListMsg`,
`convertToGraspMsg` and `convertToVisualGraspMsg` returns it unchanged, while
producing exactly the messages of the plain conversions. -/
theorem C9_conversions_preserve_candidates (header : Header) (hands : List Grasp)
    (outer_diameter hand_depth finger_width hand_height : Scalar)
    (frame_id : String) :
    (createGraspListMsgRef header hands).2 = hands ∧
    (createGraspListMsgRef header hands).1 = createGraspListMsg header hands ∧
    (convertToVisualGraspMsgRef hands outer_diameter hand_depth finger_width
        hand_height frame_id).2 = hands ∧
    (convertToVisualGraspMsgRef hands outer_diameter hand_depth finger_width
        hand_height frame_id).1 =
      convertToVisualGraspMsg hands outer_diameter hand_depth finger_width
        hand_height frame_id ∧
    ∀ hand : Grasp, (convertToGraspMsgRef hand).2 = hand := by
  refine ⟨?_, ?_, ?_, ?_, fun hand => rfl⟩
  · simp [createGraspListMsgRef, (graspMsgsRef_spec hands).2]
  · simp [createGraspListMsgRef, createGraspListMsg, (graspMsgsRef_spec hands).1]
  · simp [convertToVisualGraspMsgRef,
      (visualMarkersRef_spec outer_diameter hand_depth finger_width hand_height
        frame_id hands 0).2]
  · simp [convertToVisualGraspMsgRef, convertToVisualGraspMsg,
      (visualMarkersRef_spec outer_diameter hand_depth finger_width hand_height
        frame_id hands 0).1]

end grasp_ros2
